import Mathlib

/-!
# Verification of the vSphere session-cache provider

Shallow embedding, in Lean 4, of the session cache, connection factory,
object resolver, boot-config encoding, Ignition injection, failure-domain
keying and bootstrap-data accessors of the
`spectrocloud/cluster-api-provider-vsphere` repository, together with
theorems settling the specification claims about them.

Conventions:
* Go byte slices are `List Nat` with every element `< 256` where relevant;
  Go strings are `List Nat` (byte strings) or Lean `String` where only
  equality matters.
* Remote calls (login, liveness poll, datacenter lookup, UUID search) are
  abstracted by an environment record holding the remote side's responses;
  the functions additionally emit an event trace recording which remote
  interactions they performed and in which order.
* The global mutex in `session.go` is acquired as the first statement of
  `GetOrCreate` and held (by `defer`) for the whole body, and `clearCache`
  takes the same mutex, so every execution of these bodies is a single
  atomic step on the shared cache; concurrent executions are therefore
  modelled as sequential compositions in an arbitrary order.
-/

namespace VSphere

/-! ## Session cache table

`session.go` keeps `var sessionCache = map[string]Session{}` guarded by
`sessionMU`.  A Go map is modelled extensionally as a function from keys to
optional entries. -/

/-- A cached vSphere session, as stored in `sessionCache`: the underlying
authenticated client and the datacenter it was bound to.  Clients and
datacenters are abstract, identified by numbers. -/
structure SessionM where
  client : Nat
  datacenter : Nat
  deriving DecidableEq, Repr

/-- The `sessionCache` table: key string to cached session. -/
def Cache := String → Option SessionM

/-- The initial empty cache, `map[string]Session{}`. -/
def Cache.empty : Cache := fun _ => none

/-- `clearCache(sessionKey)` / `ClearCache(sessionKey)` from `session.go`:
`delete(sessionCache, sessionKey)` under the global mutex. -/
def clearCache (key : String) (c : Cache) : Cache :=
  fun k => if k = key then none else c k

/-- Storing a freshly built session under its key:
`sessionCache[sessionKey] = session`. -/
def Cache.store (key : String) (s : SessionM) (c : Cache) : Cache :=
  fun k => if k = key then some s else c k

/-! ## Claim C4: `Clear` removes unconditionally and is idempotent -/

/-- C4: `Clear(key)` unconditionally removes the entry for `key`; it is
idempotent (clearing an absent key is a no-op, clearing twice equals
clearing once); entries at all other keys are unchanged. -/
theorem clearCache_removes_and_idempotent (key : String) (c : Cache) :
    clearCache key c key = none ∧
    (c key = none → clearCache key c = c) ∧
    clearCache key (clearCache key c) = clearCache key c ∧
    (∀ k, k ≠ key → clearCache key c k = c k) := by
  refine ⟨?_, ?_, ?_, ?_⟩
  · simp [clearCache]
  · intro habs
    funext k
    by_cases hk : k = key
    · simp [clearCache, hk, habs.symm, hk ▸ habs]
    · simp [clearCache, hk]
  · funext k
    by_cases hk : k = key <;> simp [clearCache, hk]
  · intro k hk
    simp [clearCache, hk]

/-- Witness for C4 at a concrete cache and key: clearing the absent key
`"b"` from the one-entry cache `{"a" ↦ s}` is a no-op. -/
theorem clearCache_removes_and_idempotent_witness :
    clearCache "b" (fun k => if k = "a" then some (SessionM.mk 1 1) else none) =
      (fun k => if k = "a" then some (SessionM.mk 1 1) else none) :=
  (clearCache_removes_and_idempotent "b"
    (fun k => if k = "a" then some (SessionM.mk 1 1) else none)).2.1 (by simp)

/-! ## Session acquisition (`GetOrCreate`, `newClient`)

The remote vSphere endpoint is abstracted by `Env`, the environment's
responses to the calls the code can make: `soap.ParseURL`,
`vim25.NewClient`, `Login`, `SessionIsActive`, `DatacenterOrDefault`.
Every remote/structural interaction is also recorded in an event trace so
that ordering and counting claims can be stated. -/

/-- The remote interactions performed by `GetOrCreate` / `newClient`. -/
inductive Event
  | parseURL
  | newVimClient
  | installKeepAlive
  | login
  | sessionIsActivePoll
  | datacenterLookup
  deriving DecidableEq, Repr

/-- A parsed URL, abstract (only its presence matters here). -/
structure URLm where
  host : String
  deriving DecidableEq, Repr

/-- `Feature` from `session.go`. -/
structure Feature where
  EnableKeepAlive : Bool
  KeepAliveDuration : Nat
  deriving DecidableEq, Repr

/-- `DefaultFeature()` from `session.go`. -/
def DefaultFeature : Feature :=
  { EnableKeepAlive := false, KeepAliveDuration := 0 }

/-- `Params` from `session.go` (the `userinfo` is split into its
username/password parts). -/
structure Params where
  server : String
  datacenter : String
  username : String
  password : String
  thumbprint : String
  feature : Feature

/-- `sessionKey := params.server + params.userinfo.Username() + params.datacenter`. -/
def sessionKeyOf (p : Params) : String :=
  p.server ++ p.username ++ p.datacenter

/-- The remote endpoint's responses for one server/key. -/
structure Env where
  parseURL : Except String (Option URLm)
  vimNewClient : Except String Nat
  login : Except String Unit
  sessionIsActive : Bool
  datacenterOrDefault : Except String Nat

/-- `errors.Wrapf(err, msg)` from pkg/errors: message then cause. -/
def wrapf (msg cause : String) : String :=
  msg ++ ": " ++ cause

/-- Go's `%q` verb: the string in double quotes. -/
def quoteGo (s : String) : String :=
  "\"" ++ s ++ "\""

/-- `newClient(ctx, sessionKey, url, thumbprint, feature)` from
`session.go`: builds the vim25 client, installs the keepalive handler on
the round-tripper when `feature.EnableKeepAlive`, then logs in.  Returns
the result together with the ordered trace of interactions. -/
def newClient (env : Env) (feature : Feature) : Except String Nat × List Event :=
  match env.vimNewClient with
  | .error e => (.error e, [.newVimClient])
  | .ok vc =>
    let installTrace : List Event :=
      if feature.EnableKeepAlive then [.installKeepAlive] else []
    match env.login with
    | .error e => (.error e, .newVimClient :: installTrace ++ [.login])
    | .ok _ => (.ok vc, .newVimClient :: installTrace ++ [.login])

/-- The outcome of one `GetOrCreate` body: returned value, the cache after
the call, and the trace of interactions. -/
structure GoCResult where
  result : Except String SessionM
  cache : Cache
  trace : List Event

/-- The creation tail of `GetOrCreate` (everything after the cache-hit
check): parse the server URL, build and authenticate a client, resolve
the datacenter, and only then store the session under the key.  `tr0` is
the trace accumulated before falling through. -/
def createSession (env : Env) (cache : Cache) (p : Params) (tr0 : List Event) :
    GoCResult :=
  match env.parseURL with
  | .error e =>
      { result := .error (wrapf ("error parsing vSphere URL " ++ quoteGo p.server) e),
        cache := cache, trace := tr0 ++ [.parseURL] }
  | .ok none =>
      { result := .error ("error parsing vSphere URL " ++ quoteGo p.server),
        cache := cache, trace := tr0 ++ [.parseURL] }
  | .ok (some _url) =>
    match newClient env p.feature with
    | (.error e, tr1) =>
        { result := .error e, cache := cache, trace := tr0 ++ .parseURL :: tr1 }
    | (.ok c, tr1) =>
      match env.datacenterOrDefault with
      | .error e =>
          { result := .error (wrapf ("unable to find datacenter " ++ quoteGo p.datacenter) e),
            cache := cache, trace := tr0 ++ .parseURL :: tr1 ++ [.datacenterLookup] }
      | .ok dc =>
          { result := .ok (SessionM.mk c dc),
            cache := cache.store (sessionKeyOf p) (SessionM.mk c dc),
            trace := tr0 ++ .parseURL :: tr1 ++ [.datacenterLookup] }

/-- `GetOrCreate(ctx, params)` from `session.go`.  The body runs under the
global `sessionMU` mutex from its first statement to return, so it is one
atomic step on the cache. -/
def GetOrCreate (env : Env) (cache : Cache) (p : Params) : GoCResult :=
  match cache (sessionKeyOf p) with
  | some s =>
    if p.feature.EnableKeepAlive then
      { result := .ok s, cache := cache, trace := [] }
    else if env.sessionIsActive then
      { result := .ok s, cache := cache, trace := [.sessionIsActivePoll] }
    else
      createSession env cache p [.sessionIsActivePoll]
  | none => createSession env cache p []

/-- Number of login calls recorded in a trace. -/
def loginCount (tr : List Event) : Nat :=
  tr.count .login

/-- Whether a `GetOrCreate` outcome is an error. -/
def GoCResult.failed (r : GoCResult) : Bool :=
  match r.result with
  | .error _ => true
  | .ok _ => false

/-! ## Claim C1: one login for concurrent same-key calls

`GetOrCreate` holds `sessionMU` for its whole body, so two concurrent
calls execute as one body after the other (in either order, covered by
quantifying over both parameter lists).  Against an empty cache and a
healthy backend (login succeeds, the fresh session polls active, the
datacenter resolves), the two calls together perform exactly one login. -/

/-- C1: with the global-mutex discipline, two concurrent `GetOrCreate`
calls for the same key against an empty cache perform exactly one login:
whichever call runs first creates and caches the session (one login), and
the other hits the cache and performs none. -/
theorem getOrCreate_concurrent_single_login (env : Env) (p q : Params)
    (u : URLm) (cl dc : Nat)
    (hkey : sessionKeyOf q = sessionKeyOf p)
    (hurl : env.parseURL = .ok (some u))
    (hvim : env.vimNewClient = .ok cl)
    (hlogin : env.login = .ok ())
    (hactive : env.sessionIsActive = true)
    (hdc : env.datacenterOrDefault = .ok dc) :
    loginCount ((GetOrCreate env Cache.empty p).trace ++
      (GetOrCreate env (GetOrCreate env Cache.empty p).cache q).trace) = 1 := by
  have h1 : GetOrCreate env Cache.empty p =
      { result := .ok (SessionM.mk cl dc),
        cache := Cache.empty.store (sessionKeyOf p) (SessionM.mk cl dc),
        trace := .parseURL :: (newClient env p.feature).2 ++ [.datacenterLookup] } := by
    cases hka : p.feature.EnableKeepAlive <;>
      simp [GetOrCreate, createSession, newClient, Cache.empty, hurl, hvim, hlogin, hdc, hka]
  rw [h1]
  have h2 : (Cache.empty.store (sessionKeyOf p) (SessionM.mk cl dc)) (sessionKeyOf q) =
      some (SessionM.mk cl dc) := by
    simp [Cache.store, hkey]
  cases hka : q.feature.EnableKeepAlive <;>
    cases hkp : p.feature.EnableKeepAlive <;>
      simp [GetOrCreate, h2, hka, hactive, loginCount, newClient, hvim, hlogin, hkp,
        List.count_cons, List.count_append]

/-- Witness for C1: a concrete healthy environment, two concrete parameter
records with the same key (one with keepalive off, one with it on). -/
theorem getOrCreate_concurrent_single_login_witness :
    loginCount ((GetOrCreate
        (Env.mk (.ok (some (URLm.mk "vc.example.com"))) (.ok 1) (.ok ()) true (.ok 2))
        Cache.empty
        (Params.mk "vc.example.com" "dc0" "admin" "pw" "" (Feature.mk false 0))).trace ++
      (GetOrCreate
        (Env.mk (.ok (some (URLm.mk "vc.example.com"))) (.ok 1) (.ok ()) true (.ok 2))
        (GetOrCreate
          (Env.mk (.ok (some (URLm.mk "vc.example.com"))) (.ok 1) (.ok ()) true (.ok 2))
          Cache.empty
          (Params.mk "vc.example.com" "dc0" "admin" "pw" "" (Feature.mk false 0))).cache
        (Params.mk "vc.example.com" "dc0" "admin" "pw2" "tp" (Feature.mk true 30))).trace) = 1 :=
  getOrCreate_concurrent_single_login _ _ _ (URLm.mk "vc.example.com") 1 2
    rfl rfl rfl rfl rfl rfl

/-! ## Claim C2: cache-hit behaviour -/

/-- C2: on a cache hit with keepalive enabled the cached session is
returned with an empty trace (no liveness poll); with keepalive disabled a
`SessionIsActive` poll is issued and the cached entry returned on success;
on poll failure, or when no entry exists, execution falls through to the
creation tail (`createSession`), which authenticates and caches a fresh
session under the same key. -/
theorem getOrCreate_cache_hit_behavior (env : Env) (cache : Cache) (p : Params) :
    (∀ s, cache (sessionKeyOf p) = some s → p.feature.EnableKeepAlive = true →
      (GetOrCreate env cache p).result = .ok s ∧
      (GetOrCreate env cache p).trace = []) ∧
    (∀ s, cache (sessionKeyOf p) = some s → p.feature.EnableKeepAlive = false →
      env.sessionIsActive = true →
      (GetOrCreate env cache p).result = .ok s ∧
      (GetOrCreate env cache p).trace = [.sessionIsActivePoll]) ∧
    (∀ s, cache (sessionKeyOf p) = some s → p.feature.EnableKeepAlive = false →
      env.sessionIsActive = false →
      GetOrCreate env cache p = createSession env cache p [.sessionIsActivePoll]) ∧
    (cache (sessionKeyOf p) = none →
      GetOrCreate env cache p = createSession env cache p []) := by
  refine ⟨?_, ?_, ?_, ?_⟩
  · intro s hs hka
    simp [GetOrCreate, hs, hka]
  · intro s hs hka hact
    simp [GetOrCreate, hs, hka, hact]
  · intro s hs hka hact
    simp [GetOrCreate, hs, hka, hact]
  · intro hnone
    simp [GetOrCreate, hnone]

/-- Witness for C2: a one-entry cache hit with keepalive enabled returns
the cached session with no poll. -/
theorem getOrCreate_cache_hit_behavior_witness :
    (GetOrCreate (Env.mk (.ok none) (.ok 0) (.ok ()) false (.ok 0))
      (Cache.empty.store "sua" (SessionM.mk 7 8))
      (Params.mk "s" "a" "u" "pw" "" (Feature.mk true 10))).result =
        .ok (SessionM.mk 7 8) ∧
    (GetOrCreate (Env.mk (.ok none) (.ok 0) (.ok ()) false (.ok 0))
      (Cache.empty.store "sua" (SessionM.mk 7 8))
      (Params.mk "s" "a" "u" "pw" "" (Feature.mk true 10))).trace = [] :=
  (getOrCreate_cache_hit_behavior _ _ _).1 (SessionM.mk 7 8) (by simp [Cache.store, sessionKeyOf]) rfl

/-! ## Claim C3: session construction is atomic w.r.t. the cache -/

/-- C3: every failure during construction — URL parse failure (or a nil
URL), transport-client creation failure, login failure, datacenter
resolution failure — makes `GetOrCreate` return an error, and whenever
`GetOrCreate` returns an error the cache table is completely unchanged
(in particular at the requested key: no partial session is stored). -/
theorem getOrCreate_failure_leaves_cache_unchanged
    (env : Env) (cache : Cache) (p : Params) :
    ((GetOrCreate env cache p).failed = true →
      (GetOrCreate env cache p).cache = cache) ∧
    (cache (sessionKeyOf p) = none →
      ((∀ e, env.parseURL = .error e → (GetOrCreate env cache p).failed = true) ∧
       (env.parseURL = .ok none → (GetOrCreate env cache p).failed = true) ∧
       (∀ u e, env.parseURL = .ok (some u) → env.vimNewClient = .error e →
          (GetOrCreate env cache p).failed = true) ∧
       (∀ u cl e, env.parseURL = .ok (some u) → env.vimNewClient = .ok cl →
          env.login = .error e → (GetOrCreate env cache p).failed = true) ∧
       (∀ u cl e, env.parseURL = .ok (some u) → env.vimNewClient = .ok cl →
          env.login = .ok () → env.datacenterOrDefault = .error e →
          (GetOrCreate env cache p).failed = true))) := by
  constructor
  · intro hfail
    cases hc : cache (sessionKeyOf p) with
    | some s =>
      by_cases hka : p.feature.EnableKeepAlive <;>
        by_cases hact : env.sessionIsActive <;>
          cases hu : env.parseURL with
          | error e => simp_all [GetOrCreate, createSession, GoCResult.failed]
          | ok ou =>
            cases ou with
            | none => simp_all [GetOrCreate, createSession, GoCResult.failed]
            | some u =>
              cases hv : env.vimNewClient with
              | error e =>
                simp_all [GetOrCreate, createSession, newClient, GoCResult.failed]
              | ok cl =>
                cases hl : env.login with
                | error e =>
                  simp_all [GetOrCreate, createSession, newClient, GoCResult.failed]
                | ok _ =>
                  cases hd : env.datacenterOrDefault <;>
                    simp_all [GetOrCreate, createSession, newClient, GoCResult.failed]
    | none =>
      cases hu : env.parseURL with
      | error e => simp_all [GetOrCreate, createSession, GoCResult.failed]
      | ok ou =>
        cases ou with
        | none => simp_all [GetOrCreate, createSession, GoCResult.failed]
        | some u =>
          cases hv : env.vimNewClient with
          | error e =>
            simp_all [GetOrCreate, createSession, newClient, GoCResult.failed]
          | ok cl =>
            cases hl : env.login with
            | error e =>
              simp_all [GetOrCreate, createSession, newClient, GoCResult.failed]
            | ok _ =>
              cases hd : env.datacenterOrDefault <;>
                simp_all [GetOrCreate, createSession, newClient, GoCResult.failed]
  · intro hnone
    refine ⟨?_, ?_, ?_, ?_, ?_⟩
    · intro e hu
      simp [GetOrCreate, createSession, hnone, hu, GoCResult.failed]
    · intro hu
      simp [GetOrCreate, createSession, hnone, hu, GoCResult.failed]
    · intro u e hu hv
      simp [GetOrCreate, createSession, newClient, hnone, hu, hv, GoCResult.failed]
    · intro u cl e hu hv hl
      simp [GetOrCreate, createSession, newClient, hnone, hu, hv, hl, GoCResult.failed]
    · intro u cl e hu hv hl hd
      simp [GetOrCreate, createSession, newClient, hnone, hu, hv, hl, hd, GoCResult.failed]

/-- Witness for C3: with a failing login against an empty cache, the call
fails and the cache is unchanged. -/
theorem getOrCreate_failure_leaves_cache_unchanged_witness :
    (GetOrCreate (Env.mk (.ok (some (URLm.mk "h"))) (.ok 1) (.error "bad credentials")
        true (.ok 2)) Cache.empty
      (Params.mk "s" "d" "u" "pw" "" (Feature.mk false 0))).cache = Cache.empty :=
  (getOrCreate_failure_leaves_cache_unchanged _ Cache.empty _).1 rfl

/-! ## Claim C5: keepalive wrapper installed before login -/

/-- C5: when keepalive is requested, on every construction path of
`newClient` the keepalive round-tripper wrapper is installed before the
login call: wherever a login event occurs in the trace, an
`installKeepAlive` event precedes it. -/
theorem keepalive_installed_before_login (env : Env) (feature : Feature)
    (hka : feature.EnableKeepAlive = true)
    (pre post : List Event)
    (hsplit : (newClient env feature).2 = pre ++ Event.login :: post) :
    Event.installKeepAlive ∈ pre := by
  cases hvim : env.vimNewClient with
  | error e =>
    rw [show (newClient env feature).2 = [.newVimClient] by simp [newClient, hvim]]
      at hsplit
    cases pre with
    | nil => simp at hsplit
    | cons a t => cases t <;> simp at hsplit
  | ok vc =>
    have htr : (newClient env feature).2 =
        [.newVimClient, .installKeepAlive, .login] := by
      cases hl : env.login <;> simp [newClient, hvim, hka, hl]
    rw [htr] at hsplit
    cases pre with
    | nil => simp at hsplit
    | cons a t =>
      cases t with
      | nil => simp at hsplit
      | cons b t2 =>
        cases t2 with
        | nil =>
          simp only [List.cons_append, List.nil_append, List.cons.injEq] at hsplit
          simp [hsplit.2.1]
        | cons c t3 => simp at hsplit

/-- Witness for C5: a concrete successful construction with keepalive on;
the trace decomposes around its login event with the install event in the
prefix. -/
theorem keepalive_installed_before_login_witness :
    Event.installKeepAlive ∈ [Event.newVimClient, Event.installKeepAlive] :=
  keepalive_installed_before_login
    (Env.mk (.ok (some (URLm.mk "h"))) (.ok 3) (.ok ()) true (.ok 4))
    (Feature.mk true 60) rfl
    [Event.newVimClient, Event.installKeepAlive] [] rfl

/-! ## Boot-config base64 encoding (claim C7)

`(e *Config) encode(data)` from `extra/config.go` repeatedly base64-decodes
`data` until decoding fails, then base64-encodes the result once.  Byte
slices and Go strings are both `List Nat` of byte values.  The decoder
embeds Go's `encoding/base64` `StdEncoding.DecodeString`: the bytes `\r`
(13) and `\n` (10) are skipped wherever they occur, then the remaining
bytes are decoded in four-byte quanta (standard alphabet, `=` padding only
in the final quantum, trailing bits left unchecked, empty input decoding
successfully to empty output).  Because decoding the empty string — and
hence any data consisting only of `\r`/`\n` bytes — succeeds, the source's
decode-until-failure loop does not terminate on every input; it is
therefore embedded as a big-step termination relation (`StripTerm`,
`EncodeRun`), not as a total function. -/

/-- The standard base64 alphabet: 6-bit value to ASCII byte. -/
def b64char (n : Nat) : Nat :=
  if n < 26 then 65 + n
  else if n < 52 then 97 + (n - 26)
  else if n < 62 then 48 + (n - 52)
  else if n = 62 then 43
  else 47

/-- Inverse alphabet: ASCII byte to 6-bit value, `none` off-alphabet
(including the pad byte 61, `'='`). -/
def b64charDec (c : Nat) : Option Nat :=
  if 65 ≤ c ∧ c ≤ 90 then some (c - 65)
  else if 97 ≤ c ∧ c ≤ 122 then some (c - 97 + 26)
  else if 48 ≤ c ∧ c ≤ 57 then some (c - 48 + 52)
  else if c = 43 then some 62
  else if c = 47 then some 63
  else none

/-- `base64.StdEncoding.EncodeToString`: three input bytes per four output
bytes, `=`-padded final quantum. -/
def b64EncodeToString : List Nat → List Nat
  | [] => []
  | [a] => [b64char (a / 4), b64char (a % 4 * 16), 61, 61]
  | [a, b] => [b64char (a / 4), b64char (a % 4 * 16 + b / 16), b64char (b % 16 * 4), 61]
  | a :: b :: c :: rest =>
    b64char (a / 4) :: b64char (a % 4 * 16 + b / 16) ::
      b64char (b % 16 * 4 + c / 64) :: b64char (c % 64) :: b64EncodeToString rest

/-- The quantum scan of Go's base64 decoder, after `\r`/`\n` removal:
groups of four bytes, padding only in the final group, error (`none`) on
off-alphabet bytes, misplaced padding, or length not a multiple of four;
the empty input decodes to the empty output. -/
def b64DecodeQuanta : List Nat → Option (List Nat)
  | [] => some []
  | c1 :: c2 :: c3 :: c4 :: rest =>
    match b64charDec c1, b64charDec c2 with
    | some a, some b =>
      if c3 = 61 then
        if c4 = 61 ∧ rest = [] then some [a * 4 + b / 16] else none
      else
        match b64charDec c3 with
        | some c =>
          if c4 = 61 then
            if rest = [] then some [a * 4 + b / 16, b % 16 * 16 + c / 4] else none
          else
            match b64charDec c4 with
            | some d =>
              match b64DecodeQuanta rest with
              | some tail =>
                  some ((a * 4 + b / 16) :: (b % 16 * 16 + c / 4) :: (c % 4 * 64 + d) :: tail)
              | none => none
            | none => none
        | none => none
    | _, _ => none
  | _ => none

/-- `base64.StdEncoding.DecodeString`: `\r` and `\n` bytes are ignored
wherever they occur, then the remainder is decoded in quanta. -/
def goDecodeString (s : List Nat) : Option (List Nat) :=
  b64DecodeQuanta (s.filter fun c => decide (c ≠ 13 ∧ c ≠ 10))

/-- Big-step semantics of the `for` loop of `encode`: `StripTerm data r`
holds when the loop entered with `data` terminates, leaving `r` as the
value of `data` at the `break` (the first iterate on which decoding
fails).  Inputs from which decoding succeeds forever — the empty string
and everything whose decode chain reaches a `\r`/`\n`-only string — have
no terminating run. -/
inductive StripTerm : List Nat → List Nat → Prop
  | done (data : List Nat) :
      goDecodeString data = none → StripTerm data data
  | step (data d r : List Nat) :
      goDecodeString data = some d → StripTerm d r → StripTerm data r

/-- Big-step semantics of `(e *Config) encode(data)` from
`extra/config.go`: `EncodeRun data result` holds when the call returns
`result` — immediately `""` on empty input, otherwise the single
base64-encoding of the value at which the strip loop terminated. -/
def EncodeRun (data result : List Nat) : Prop :=
  (data.length = 0 ∧ result = []) ∨
  (data.length ≠ 0 ∧ ∃ core, StripTerm data core ∧ result = b64EncodeToString core)

theorem b64charDec_b64char : ∀ n < 64, b64charDec (b64char n) = some n := by
  decide

theorem b64char_ne_pad : ∀ n < 64, b64char n ≠ 61 := by
  decide

theorem b64char_gt_13 (n : Nat) : 13 < b64char n := by
  unfold b64char
  split_ifs <;> omega

/-- Quantum decoding inverts encoding on byte data. -/
theorem b64_roundtrip : ∀ data : List Nat, (∀ b ∈ data, b < 256) →
    b64DecodeQuanta (b64EncodeToString data) = some data := by
  intro data
  induction data using b64EncodeToString.induct with
  | case1 => intro _; rfl
  | case2 a =>
    intro h
    have ha : a < 256 := h a (by simp)
    have h1 := b64charDec_b64char (a / 4) (by omega)
    have h2 := b64charDec_b64char (a % 4 * 16) (by omega)
    simp [b64EncodeToString, b64DecodeQuanta, h1, h2]
    all_goals omega
  | case3 a b =>
    intro h
    have ha : a < 256 := h a (by simp)
    have hb : b < 256 := h b (by simp)
    have h1 := b64charDec_b64char (a / 4) (by omega)
    have h2 := b64charDec_b64char (a % 4 * 16 + b / 16) (by omega)
    have h3 := b64charDec_b64char (b % 16 * 4) (by omega)
    have hp3 := b64char_ne_pad (b % 16 * 4) (by omega)
    simp [b64EncodeToString, b64DecodeQuanta, h1, h2, h3, hp3]
    all_goals omega
  | case4 a b c rest ih =>
    intro h
    have ha : a < 256 := h a (by simp)
    have hb : b < 256 := h b (by simp)
    have hc : c < 256 := h c (by simp)
    have hrest : ∀ x ∈ rest, x < 256 := fun x hx => h x (by simp [hx])
    have h1 := b64charDec_b64char (a / 4) (by omega)
    have h2 := b64charDec_b64char (a % 4 * 16 + b / 16) (by omega)
    have h3 := b64charDec_b64char (b % 16 * 4 + c / 64) (by omega)
    have h4 := b64charDec_b64char (c % 64) (by omega)
    have hp3 := b64char_ne_pad (b % 16 * 4 + c / 64) (by omega)
    have hp4 := b64char_ne_pad (c % 64) (by omega)
    simp [b64EncodeToString, b64DecodeQuanta, h1, h2, h3, h4, hp3, hp4, ih hrest]
    all_goals omega

/-- Encoder output never contains `\r`/`\n` (every byte exceeds 13). -/
theorem mem_b64EncodeToString_gt_13 :
    ∀ data : List Nat, ∀ x ∈ b64EncodeToString data, 13 < x := by
  intro data
  induction data using b64EncodeToString.induct with
  | case1 => simp [b64EncodeToString]
  | case2 a =>
    intro x hx
    simp [b64EncodeToString] at hx
    rcases hx with rfl | rfl | rfl
    · exact b64char_gt_13 _
    · exact b64char_gt_13 _
    · omega
  | case3 a b =>
    intro x hx
    simp [b64EncodeToString] at hx
    rcases hx with rfl | rfl | rfl | rfl
    · exact b64char_gt_13 _
    · exact b64char_gt_13 _
    · exact b64char_gt_13 _
    · omega
  | case4 a b c rest ih =>
    intro x hx
    simp [b64EncodeToString] at hx
    rcases hx with rfl | rfl | rfl | rfl | hx
    · exact b64char_gt_13 _
    · exact b64char_gt_13 _
    · exact b64char_gt_13 _
    · exact b64char_gt_13 _
    · exact ih x hx

/-- The full Go decoder inverts encoding on byte data: encoder output has
no `\r`/`\n` to skip, and quantum decoding inverts it. -/
theorem goDecodeString_b64EncodeToString (data : List Nat)
    (h : ∀ b ∈ data, b < 256) :
    goDecodeString (b64EncodeToString data) = some data := by
  have hf : (b64EncodeToString data).filter (fun c => decide (c ≠ 13 ∧ c ≠ 10)) =
      b64EncodeToString data := by
    refine List.filter_eq_self.mpr (fun a ha => ?_)
    have := mem_b64EncodeToString_gt_13 data a ha
    simp only [decide_eq_true_eq]
    omega
  unfold goDecodeString
  rw [hf, b64_roundtrip data h]

/-- Encoding strictly lengthens non-empty data (three bytes in, four out). -/
theorem length_lt_b64EncodeToString : ∀ data : List Nat, data ≠ [] →
    data.length < (b64EncodeToString data).length := by
  intro data
  induction data using b64EncodeToString.induct with
  | case1 => simp
  | case2 a => intro _; simp [b64EncodeToString]
  | case3 a b => intro _; simp [b64EncodeToString]
  | case4 a b c rest ih =>
    intro _
    by_cases hr : rest = []
    · subst hr; simp [b64EncodeToString]
    · have := ih hr
      simp only [b64EncodeToString, List.length_cons]
      omega

/-- Inversion: a terminating run either breaks at once (decoding fails)
or does one decode step and continues. -/
theorem stripTerm_inv (x r : List Nat) (h : StripTerm x r) :
    (goDecodeString x = none ∧ r = x) ∨
    (∃ d, goDecodeString x = some d ∧ StripTerm d r) := by
  cases h with
  | done _ hdec => exact Or.inl ⟨hdec, rfl⟩
  | step _ d r hdec hterm => exact Or.inr ⟨d, hdec, hterm⟩

/-- No terminating run of the strip loop starts at the empty string:
decoding the empty string succeeds (with empty output), forever. -/
theorem stripTerm_ne_nil : ∀ x r : List Nat, StripTerm x r → x ≠ [] := by
  intro x r h
  induction h with
  | done data hdec =>
    intro hx
    subst hx
    simp [goDecodeString, b64DecodeQuanta] at hdec
  | step data d r hdec hterm ih =>
    intro hx
    subst hx
    have hd : d = [] := by
      have hnil : goDecodeString ([] : List Nat) = some [] := rfl
      rw [hnil] at hdec
      exact (Option.some.inj hdec).symm
    exact ih hd

/-- No terminating run starts at the single newline byte either: decoding
`"\n"` skips the newline and succeeds with empty output. -/
theorem stripTerm_newline_false : ∀ r : List Nat, ¬ StripTerm [10] r := by
  intro r h
  have h10 : goDecodeString [10] = some [] := rfl
  rcases stripTerm_inv _ _ h with ⟨hdec, _⟩ | ⟨d, hdec, hterm⟩
  · rw [h10] at hdec
    cases hdec
  · rw [h10] at hdec
    exact stripTerm_ne_nil [] r ((Option.some.inj hdec) ▸ hterm) rfl

/-- The strip loop unwraps one encoding layer and continues identically:
it terminates on the encoded payload with a given final value iff it
terminates on the plaintext with that value. -/
theorem stripTerm_encode_iff (data : List Nat) (h : ∀ b ∈ data, b < 256)
    (r : List Nat) :
    StripTerm (b64EncodeToString data) r ↔ StripTerm data r := by
  constructor
  · intro hterm
    rcases stripTerm_inv _ _ hterm with ⟨hdec, _⟩ | ⟨d, hdec, hterm'⟩
    · rw [goDecodeString_b64EncodeToString data h] at hdec
      cases hdec
    · rw [goDecodeString_b64EncodeToString data h] at hdec
      exact (Option.some.inj hdec) ▸ hterm'
  · intro hterm
    exact StripTerm.step _ _ _ (goDecodeString_b64EncodeToString data h) hterm

/-- Partial-correctness idempotence, the intent behind the encode loop:
`encode` on an already-encoded payload returns a result exactly when it
does on the plaintext, and then the two final strings are equal (and it
diverges on one side exactly when it diverges on the other). -/
theorem encodeRun_idempotent_partial (data : List Nat)
    (h : ∀ b ∈ data, b < 256) (r : List Nat) :
    EncodeRun (b64EncodeToString data) r ↔ EncodeRun data r := by
  by_cases hne : data = []
  · subst hne
    exact Iff.rfl
  · have h1 : data.length ≠ 0 := by
      simpa [List.length_eq_zero] using hne
    have h2 : (b64EncodeToString data).length ≠ 0 := by
      have := length_lt_b64EncodeToString data hne
      omega
    unfold EncodeRun
    constructor
    · rintro (⟨hl, _⟩ | ⟨_, core, hterm, hr⟩)
      · exact absurd hl h2
      · exact Or.inr ⟨h1, core, (stripTerm_encode_iff data h core).mp hterm, hr⟩
    · rintro (⟨hl, _⟩ | ⟨_, core, hterm, hr⟩)
      · exact absurd hl h1
      · exact Or.inr ⟨h2, core, (stripTerm_encode_iff data h core).mpr hterm, hr⟩

/-- C7: the code violates the claim.  On the byte payload `[10]` (the
single newline `"\n"`, whose base64 encoding is `"Cg=="` =
`[67, 103, 61, 61]`), the decode-until-failure loop of `encode` never
breaks: decoding `"Cg=="` yields `"\n"`, decoding `"\n"` skips the
newline and succeeds with `""`, and decoding `""` succeeds with `""`,
forever.  Hence neither `encode("\n")` nor `encode("Cg==")` has any
terminating run, and no final string is yielded at all — contradicting
both the claim and the function's own comment that it decodes "before
returning the result as a base64 encoded string". -/
theorem encode_diverges_on_newline :
    b64EncodeToString [10] = [67, 103, 61, 61] ∧
    goDecodeString [67, 103, 61, 61] = some [10] ∧
    goDecodeString [10] = some [] ∧
    goDecodeString [] = some [] ∧
    (¬ ∃ r, EncodeRun [10] r) ∧
    (¬ ∃ r, EncodeRun [67, 103, 61, 61] r) := by
  refine ⟨by decide, by decide, rfl, rfl, ?_, ?_⟩
  · rintro ⟨r, (⟨hl, _⟩ | ⟨_, core, hterm, _⟩)⟩
    · simp at hl
    · exact stripTerm_newline_false core hterm
  · rintro ⟨r, (⟨hl, _⟩ | ⟨_, core, hterm, _⟩)⟩
    · simp at hl
    · have hcg : goDecodeString [67, 103, 61, 61] = some [10] := by decide
      rcases stripTerm_inv _ _ hterm with ⟨hdec, _⟩ | ⟨d, hdec, hterm'⟩
      · rw [hcg] at hdec
        cases hdec
      · rw [hcg] at hdec
        exact stripTerm_newline_false core ((Option.some.inj hdec) ▸ hterm')

/-! ## Object resolver (claim C6)

`findByUUID` from `session.go`, with `FindByBIOSUUID` / `FindByInstanceUUID`
as its two entry points.  The remote `SearchIndex.FindByUuid` call is
abstracted by `FindEnv`; a `remoteSearch` event records that the remote
call was issued. -/

/-- Events of the resolver: the single remote search call. -/
inductive FindEvent
  | remoteSearch
  deriving DecidableEq, Repr

/-- The remote search index's response, per UUID and lookup mode:
a transport error, or an optional object reference (abstract id). -/
structure FindEnv where
  findByUuid : String → Bool → Except String (Option Nat)

/-- The receiver `*Session` as the resolver sees it: possibly-nil client
and the datacenter binding. -/
structure SessionR where
  client : Option Nat
  datacenter : Option Nat

/-- `(s *Session) findByUUID(ctx, uuid, findByInstanceUUID)` from
`session.go`: nil-client guard, remote search, error wrapping. -/
def findByUUID (env : FindEnv) (s : SessionR) (uuid : String)
    (findByInstanceUUID : Bool) : Except String (Option Nat) × List FindEvent :=
  match s.client with
  | none => (.error "vSphere client is not initialized", [])
  | some _ =>
    match env.findByUuid uuid findByInstanceUUID with
    | .error e =>
        (.error (wrapf ("error finding object by uuid " ++ quoteGo uuid) e),
         [.remoteSearch])
    | .ok r => (.ok r, [.remoteSearch])

/-- `(s *Session) FindByBIOSUUID(ctx, uuid)`. -/
def FindByBIOSUUID (env : FindEnv) (s : SessionR) (uuid : String) :
    Except String (Option Nat) × List FindEvent :=
  findByUUID env s uuid false

/-- `(s *Session) FindByInstanceUUID(ctx, uuid)`. -/
def FindByInstanceUUID (env : FindEnv) (s : SessionR) (uuid : String) :
    Except String (Option Nat) × List FindEvent :=
  findByUUID env s uuid true

/-- C6: for every UUID and both lookup modes (`FindByBIOSUUID` is
`findByUUID` with mode `false`, `FindByInstanceUUID` with mode `true`):
with a nil client the lookup fails immediately with the "not initialized"
error and no remote call; with a client present, a transport error is
wrapped with the queried UUID, and a not-found result is a nil reference
with no error. -/
theorem findByUUID_error_handling (env : FindEnv) (s : SessionR) (uuid : String) :
    (FindByBIOSUUID env s uuid = findByUUID env s uuid false ∧
     FindByInstanceUUID env s uuid = findByUUID env s uuid true) ∧
    (s.client = none → ∀ mode,
      findByUUID env s uuid mode = (.error "vSphere client is not initialized", [])) ∧
    (∀ c, s.client = some c → ∀ mode e, env.findByUuid uuid mode = .error e →
      findByUUID env s uuid mode =
        (.error (wrapf ("error finding object by uuid " ++ quoteGo uuid) e),
         [.remoteSearch])) ∧
    (∀ c, s.client = some c → ∀ mode, env.findByUuid uuid mode = .ok none →
      findByUUID env s uuid mode = (.ok none, [.remoteSearch])) := by
  refine ⟨⟨rfl, rfl⟩, ?_, ?_, ?_⟩
  · intro hnil mode
    simp [findByUUID, hnil]
  · intro c hc mode e he
    simp [findByUUID, hc, he]
  · intro c hc mode hnf
    simp [findByUUID, hc, hnf]

/-- Witness for C6: a nil-client session fails immediately with the
"not initialized" error and an empty trace. -/
theorem findByUUID_error_handling_witness :
    findByUUID (FindEnv.mk fun _ _ => .ok none) (SessionR.mk none none)
        "4201f7ed" false =
      (.error "vSphere client is not initialized", []) :=
  (findByUUID_error_handling (FindEnv.mk fun _ _ => .ok none)
    (SessionR.mk none none) "4201f7ed").2.1 rfl false

/-! ## Ignition hostname / network injection (claim C8)

From the `util` source file (`setHostName`, `setNetwork`), over a minimal
but faithful model of the Ignition v2.3 config fields the code touches. -/

/-- An Ignition storage file entry, with the fields the code sets. -/
structure IgnFile where
  Filesystem : String
  Path : String
  Append : Bool
  ContentsSource : String
  Mode : Option Nat
  deriving DecidableEq, Repr

/-- An Ignition networkd unit. -/
structure NetworkdUnit where
  Contents : String
  Name : String
  deriving DecidableEq, Repr

/-- The Ignition config fields used by `setHostName` / `setNetwork`. -/
structure IgnConfig where
  storageFiles : List IgnFile
  networkdUnits : List NetworkdUnit
  deriving DecidableEq, Repr

/-- `NetworkDeviceSpec` fields read by `setNetwork`. -/
structure NetworkDeviceSpec where
  IPAddrs : List String
  Gateway4 : String
  Nameservers : List String
  SearchDomains : List String
  deriving DecidableEq, Repr

/-- `hostNamePath = "/etc/hostname"`. -/
def hostNamePath : String := "/etc/hostname"

/-- `rootFileSystem = "root"`. -/
def rootFileSystem : String := "root"

/-- The file entry `setHostName` appends. -/
def hostNameFile (hostname : String) : IgnFile :=
  { Filesystem := rootFileSystem, Path := hostNamePath, Append := false,
    ContentsSource := "data:," ++ hostname, Mode := some 420 }

/-- `setHostName(hostname, config)` from the `util` source: if any storage
file already has path `/etc/hostname` the config is returned unchanged;
otherwise the hostname file entry is appended. -/
def setHostName (hostname : String) (config : IgnConfig) : IgnConfig :=
  if config.storageFiles.any (fun f => f.Path = hostNamePath) then
    config
  else
    { config with storageFiles := config.storageFiles ++ [hostNameFile hostname] }

/-- The networkd unit `setNetwork` appends, from the first device with a
non-empty `IPAddrs` list. -/
def defaultNetworkdUnit (devices : List NetworkDeviceSpec) : NetworkdUnit :=
  let withIP := devices.find? (fun d => 0 < d.IPAddrs.length)
  let ip4 := (withIP.map (fun d => d.IPAddrs.headI)).getD ""
  let gateway4 := (withIP.map (fun d => d.Gateway4)).getD ""
  let dns := (withIP.map (fun d => String.intercalate " " d.Nameservers)).getD ""
  let searchDomains := (withIP.map (fun d => String.intercalate " " d.SearchDomains)).getD ""
  { Contents := "[Match]\nName=ens192\n\n[Network]\nAddress=" ++ ip4 ++
      "\nGateway=" ++ gateway4 ++ "\nDNS=" ++ dns ++ "\nDomains=" ++ searchDomains,
    Name := "00-ens192.network" }

/-- `setNetwork(devices, config)` from the `util` source: the default unit
is appended only when the config has no networkd units. -/
def setNetwork (devices : List NetworkDeviceSpec) (config : IgnConfig) : IgnConfig :=
  if config.networkdUnits.length = 0 then
    { config with networkdUnits := config.networkdUnits ++ [defaultNetworkdUnit devices] }
  else
    config

/-- C8: `setHostName` appends an `/etc/hostname` entry only when no file
at that path is present (otherwise the config is unchanged), and
`setNetwork` appends a single default network unit only when the config
has no network units (otherwise unchanged). -/
theorem setHostName_setNetwork_conditional (hostname : String)
    (devices : List NetworkDeviceSpec) (config : IgnConfig) :
    ((∃ f ∈ config.storageFiles, f.Path = hostNamePath) →
      setHostName hostname config = config) ∧
    ((∀ f ∈ config.storageFiles, f.Path ≠ hostNamePath) →
      (setHostName hostname config).storageFiles =
        config.storageFiles ++ [hostNameFile hostname] ∧
      (setHostName hostname config).networkdUnits = config.networkdUnits) ∧
    (config.networkdUnits ≠ [] → setNetwork devices config = config) ∧
    (config.networkdUnits = [] →
      (setNetwork devices config).networkdUnits = [defaultNetworkdUnit devices] ∧
      (setNetwork devices config).storageFiles = config.storageFiles) := by
  refine ⟨?_, ?_, ?_, ?_⟩
  · intro ⟨f, hf, hp⟩
    have : config.storageFiles.any (fun f => f.Path = hostNamePath) = true :=
      List.any_eq_true.mpr ⟨f, hf, by simp [hp]⟩
    simp [setHostName, this]
  · intro habs
    have : config.storageFiles.any (fun f => f.Path = hostNamePath) = false := by
      simp only [List.any_eq_false]
      intro f hf
      simp [habs f hf]
    simp [setHostName, this]
  · intro hne
    simp [setNetwork, List.length_eq_zero, hne]
  · intro hnil
    simp [setNetwork, hnil]

/-- Witness for C8: a config already containing an `/etc/hostname` file is
returned unchanged by `setHostName`. -/
theorem setHostName_setNetwork_conditional_witness :
    setHostName "node1"
      (IgnConfig.mk [IgnFile.mk "root" "/etc/hostname" false "data:,old" (some 420)] []) =
      IgnConfig.mk [IgnFile.mk "root" "/etc/hostname" false "data:,old" (some 420)] [] :=
  (setHostName_setNetwork_conditional "node1" []
    (IgnConfig.mk [IgnFile.mk "root" "/etc/hostname" false "data:,old" (some 420)] [])).1
    ⟨IgnFile.mk "root" "/etc/hostname" false "data:,old" (some 420), by simp, rfl⟩

/-! ## Failure domain: compute-cluster key (claim C9)

From `failuredomain.go` (annotation-based variant):
`getComputeClusterFromResourcePool` splits the resource-pool path on `"/"`
and takes element 0; `GetFailureDomain` uses that as the map key of the
placement record. -/

/-- Go's `strings.Split(s, sep)` for a one-character separator, over the
string's characters.  `Split("", sep) = [""]`, and separators at the ends
produce empty segments, as in Go. -/
def Split (sep : Char) : List Char → List (List Char)
  | [] => [[]]
  | c :: rest =>
    if c = sep then [] :: Split sep rest
    else
      match Split sep rest with
      | [] => [[c]]
      | seg :: segs => (c :: seg) :: segs

theorem Split_ne_nil (sep : Char) (l : List Char) : Split sep l ≠ [] := by
  induction l with
  | nil => simp [Split]
  | cons c rest ih =>
    by_cases h : c = sep
    · simp [Split, h]
    · simp only [Split, if_neg h]
      cases hs : Split sep rest with
      | nil => exact absurd hs ih
      | cons seg segs => simp

/-- `getComputeClusterFromResourcePool(resourcePool)` from
`failuredomain.go`: `strings.Split(resourcePool, "/")[0]`. -/
def getComputeClusterFromResourcePool (resourcePool : List Char) : List Char :=
  (Split '/' resourcePool).headI

/-- The placement record value, `clusterv1.FailureDomainSpec`. -/
structure FailureDomainSpec where
  ControlPlane : Bool
  Attributes : List (String × List Char)
  deriving DecidableEq, Repr

/-- `ControlPlaneFailureDomain` from `failuredomain.go`. -/
structure ControlPlaneFailureDomain where
  Datacenter : List Char
  Folder : List Char
  Datastore : List Char
  ResourcePool : List Char
  deriving DecidableEq, Repr

/-- `(c *ControlPlaneFailureDomain) GetFailureDomain()` from the
annotation-based `failuredomain.go`: returns the compute-cluster key
derived from the resource-pool path together with the control-plane
placement record. -/
def GetFailureDomain (c : ControlPlaneFailureDomain) :
    List Char × FailureDomainSpec :=
  (getComputeClusterFromResourcePool c.ResourcePool,
   { ControlPlane := true,
     Attributes :=
       [("Datacenter", c.Datacenter), ("Folder", c.Folder),
        ("Datastore", c.Datastore), ("ResourcePool", c.ResourcePool)] })

/-- The spec's words for C9: the first `'/'`-separated segment of a path. -/
def firstPathSegment (path : List Char) : List Char :=
  path.takeWhile (fun c => c ≠ '/')

theorem Split_headI_eq_takeWhile (l : List Char) :
    (Split '/' l).headI = l.takeWhile (fun c => c ≠ '/') := by
  induction l with
  | nil => simp [Split]
  | cons c rest ih =>
    by_cases h : c = '/'
    · simp [Split, h]
    · simp only [Split, if_neg h]
      cases hs : Split '/' rest with
      | nil => exact absurd hs (Split_ne_nil '/' rest)
      | cons seg segs =>
        simp only [List.headI, List.takeWhile, h, decide_not]
        simp only [hs, List.headI] at ih
        simp [ih, h]

/-- C9: for every resource-pool path, the compute-cluster name keying the
control-plane failure-domain placement record produced by
`GetFailureDomain` is the first `'/'`-separated segment of that path; in
particular `"vSAN Cluster/Resources"` yields `"vSAN Cluster"`. -/
theorem getFailureDomain_key_is_first_segment (c : ControlPlaneFailureDomain) :
    (GetFailureDomain c).1 = firstPathSegment c.ResourcePool ∧
    getComputeClusterFromResourcePool ("vSAN Cluster/Resources".toList) =
      "vSAN Cluster".toList := by
  constructor
  · exact Split_headI_eq_takeWhile c.ResourcePool
  · decide

/-! ## Bootstrap data accessors (claim C10)

From `bootstrap/data.go`.  Go method-call semantics: a method with a value
receiver runs its body on a copy of the receiver, so assignments inside the
body never reach the caller's variable; a pointer receiver's body updates
the caller's variable.  `methodCall` embeds exactly this calling
convention; the bodies below are the translated method bodies. -/

inductive ReceiverKind
  | byValue
  | byPointer
  deriving DecidableEq

/-- A Go method call on receiver variable `x`: the state of `x` after the
call.  A value receiver mutates a copy (computed, then discarded); a
pointer receiver mutates `x` itself. -/
def methodCall {α : Type} (k : ReceiverKind) (body : α → α) (x : α) : α :=
  match k with
  | .byValue => (fun _updatedCopy => x) (body x)
  | .byPointer => body x

/-- `type Format string` from `bootstrap/data.go`. -/
def Format := String
  deriving DecidableEq

/-- `CloudConfig Format = "cloud-config"`. -/
def CloudConfig : Format := "cloud-config"

/-- `Ignition Format = "ignition"`. -/
def Ignition : Format := "ignition"

/-- `VMBootstrapData` from `bootstrap/data.go`. -/
structure VMBootstrapData where
  value : List Nat
  format : Format

/-- Body of `func (vbd VMBootstrapData) SetValue(value []byte)`:
`vbd.value = value`. -/
def setValueBody (v : List Nat) (vbd : VMBootstrapData) : VMBootstrapData :=
  { vbd with value := v }

/-- Body of `func (vbd *VMBootstrapData) SetFormat(format Format)`:
`vbd.format = format`. -/
def setFormatBody (f : Format) (vbd : VMBootstrapData) : VMBootstrapData :=
  { vbd with format := f }

/-- `func (vbd *VMBootstrapData) GetValue() []byte`. -/
def VMBootstrapData.GetValue (vbd : VMBootstrapData) : List Nat :=
  vbd.value

/-- `func (vbd *VMBootstrapData) GetFormat() Format`. -/
def VMBootstrapData.GetFormat (vbd : VMBootstrapData) : Format :=
  vbd.format

/-- The caller's `d` after `d.SetValue(v)` — `SetValue` is declared on a
VALUE receiver in the source. -/
def VMBootstrapData.SetValue (d : VMBootstrapData) (v : List Nat) : VMBootstrapData :=
  methodCall .byValue (setValueBody v) d

/-- The caller's `d` after `d.SetFormat(f)` — `SetFormat` is declared on a
POINTER receiver in the source. -/
def VMBootstrapData.SetFormat (d : VMBootstrapData) (f : Format) : VMBootstrapData :=
  methodCall .byPointer (setFormatBody f) d

/-- C10: `SetValue` never mutates the data it is called on — for every `d`
and `v`, `d.GetValue` after `d.SetValue(v)` equals `d.GetValue` before
(the value-receiver body writes only to a copy) — while `SetFormat`, on a
pointer receiver, does update the value observed by `GetFormat`. -/
theorem setValue_does_not_mutate (d : VMBootstrapData) (v : List Nat) (f : Format) :
    (d.SetValue v).GetValue = d.GetValue ∧
    (d.SetFormat f).GetFormat = f := by
  exact ⟨rfl, rfl⟩

end VSphere
